import Mathlib

/-!
Verification development for the reportserver identity and authentication
subsystem.  The definitions below are a shallow embedding of
src/modules/auth.js: JS objects become Lean structures with Option fields
for possibly absent properties, the module-level mutable identities list is
threaded explicitly through every operation, and JS exceptions are modelled
with Except.  Machine times are modelled as whole seconds (Int), matching
the rounded second resolution the source uses for token timestamps.
-/

namespace ReportServer

/-- JS runtime errors that the embedded code can raise. -/
inductive JsError where
  | referenceError (nm : String)
  | typeError (msg : String)
  | thrown (msg : String)
deriving DecidableEq

/-- Credential blob of an identity (auth field).  The core only ever reads
the type property (spec section 3); all remaining provider-owned fields
(password, salt, hash, ...) are collapsed into one opaque rest string. -/
structure AuthDetails where
  type : Option String
  rest : String := ""
deriving DecidableEq

/-- JS truthiness of a possibly absent string property: undefined and the
empty string are falsy. -/
def truthyStr : Option String → Bool
  | none => false
  | some s => !(s == "")

/-- Value found in the functions property of a request: either a JS array of
strings, or some truthy non-array value.  An absent or falsy value is
modelled as none at the use site. -/
inductive FunctionsVal where
  | arr (fs : List String)
  | nonArray
deriving DecidableEq

/-- Caller-supplied identity details (the details argument of the
validation pipeline and of the CRUD operations). -/
structure Details where
  name : Option String
  auth : Option AuthDetails := none
  functions : Option FunctionsVal := none
deriving DecidableEq

/-- Options argument of validateIdentitySpec (auth.js:104). -/
structure Options where
  newIdentity : Bool := false
  validFunctions : Option (List String) := none
deriving DecidableEq

/-- A stored identity record.  The initial hard-coded record has no id
property, so id is optional; addIdentity assigns one at creation. -/
structure IdentityRecord where
  name : String
  id : Option String := none
  auth : Option AuthDetails := none
  functions : Option (List String) := none
deriving DecidableEq

/-- Result of a provider validate call (spec section 4.1). -/
structure ValidateResult where
  state : String
  reason : Option String := none
  cleanRecord : Option AuthDetails := none
deriving DecidableEq

/-- Result of a provider commit call (spec section 4.1). -/
structure CommitResult where
  state : String
  reason : Option String := none
  commitRecord : Option AuthDetails := none
deriving DecidableEq

/-- Result of a provider authenticate call (spec section 4.1). -/
structure AuthnResult where
  state : String
  reason : Option String := none
deriving DecidableEq

/-- Modelled from the spec: an authentication provider module.  The concrete
password provider (required from ./authProviders/password/module, auth.js:13)
is not among the sources, so providers are kept abstract: hasValidate and
hasCommit model the presence of the validate and commit properties that
validateIdentitySpec tests for, and the three functions model the contract
of spec section 4.1.  commit may raise (modelled with Except); validate and
authenticate are expected to return structured results (spec section 6). -/
structure Provider where
  hasValidate : Bool := true
  hasCommit : Bool := true
  validate : AuthDetails → ValidateResult
  commit : Option AuthDetails → Except JsError CommitResult
  authenticate : Option AuthDetails → Details → AuthnResult

/-- The provider registry: authTypes object lookup by type string. -/
abbrev Registry := String → Option Provider

/-- Registry of supported authentication types (auth.js:12-14): only the
password type is registered.  The password module itself is not among the
sources, so its value is a parameter. -/
def authTypes (passwordModule : Provider) : Registry :=
  fun t => if t == "password" then some passwordModule else none

/-- The hard-coded initial identities list (auth.js:17-28). -/
def initialIdentities : List IdentityRecord :=
  [ { name := "admin",
      id := none,
      auth := some { type := some "password", rest := "Pa$$w0rd/salt/hash" },
      functions := some ["auth", "api"] } ]

/-! ## Token service (auth.js:43-78) -/

/-- Decoded JWT payload built by newToken. -/
structure Payload where
  name : String
  iat : Int
  exp : Int
  functions : Option (List String) := none
deriving DecidableEq

/-- A signed token: jwt.sign is injective on (payload, key), so a token is
modelled as the payload together with the key it was signed with. -/
structure Token where
  payload : Payload
  sig : String
deriving DecidableEq

/-- Process-wide signing secret (auth.js:9): a uuid generated once at
startup, modelled as a fixed opaque string. -/
def secret : String := "3f1c9a6e-startup-secret-0000"

/-- Options argument of newToken; duration in whole seconds. -/
structure TokenOptions where
  duration : Option Int := none
deriving DecidableEq

/-- newToken (auth.js:43-64).  exp defaults to 30 minutes past now and is
overridden when options.duration is supplied.  The functions property is
copied onto the payload exactly when identity.functions is truthy; a JS
array (even an empty one) is always truthy and an absent property is falsy,
so the optional field is copied through unchanged. -/
def newToken (identity : IdentityRecord) (options : Option TokenOptions) (now : Int) : Token :=
  let exp : Int :=
    match options with
    | some o =>
      match o.duration with
      | some d => now + d
      | none => now + 30 * 60
    | none => now + 30 * 60
  { payload :=
      { name := identity.name,
        iat := now,
        exp := exp,
        functions := identity.functions },
    sig := secret }

/-- verifyToken (auth.js:71-78).  jwt.verify raises on a signature mismatch
or when the clock has reached exp; the catch turns any such raise into
null.  On success jwt.decode returns the payload. -/
def verifyToken (token : Token) (now : Int) : Option Payload :=
  if token.sig = secret ∧ now < token.payload.exp then some token.payload else none

/-! ## Identity validation pipeline (auth.js:104-218)

The source function is one long body divided by section comments
(Validate name / Validate authentication / Validate functions list); each
section is embedded as one function returning Except, where error carries
the result object of an early return statement. -/

/-- Result object of validateIdentitySpec.  Early returns carry state and
reason and leave pass falsy (an absent property); the success return sets
pass, cleanRecord and authType (auth.js:217). -/
structure PipelineResult where
  state : String
  reason : Option String := none
  pass : Bool := false
  cleanRecord : Option IdentityRecord := none
  authType : Option Provider := none

/-- Character class of the name and function regexes [A-z0-9_\-.]
(auth.js:106-107).  A-z spans char codes 65 to 122 (so it also contains the
chars between Z and a, underscore among them); digits, dash and dot are
added explicitly. -/
def nameCharOk (c : Char) : Bool :=
  (65 ≤ c.toNat && c.toNat ≤ 122) || (48 ≤ c.toNat && c.toNat ≤ 57) || c == '-' || c == '.'

/-- JS String.match with the unanchored regex [A-z0-9_\-.]+ is truthy
exactly when the string contains at least one character of the class. -/
def matchesNameRegex (s : String) : Bool :=
  s.toList.any nameCharOk

/-- String rendition of the regexes, as interpolated into reason strings. -/
def nameRegexText : String := "/[A-z0-9_\\-.]+/"

/-- Normalization of the options argument: if (!options) options = {}
(auth.js:112-114); absent properties of the empty object are falsy. -/
def normOptions (options : Option Options) : Options :=
  options.getD { newIdentity := false, validFunctions := none }

/-- Validate name section (auth.js:116-137): presence check, format check
against the unanchored name regex, then the store existence check whose
polarity depends on options.newIdentity.  On success the validated name
(copied into cleanRecord.name) is returned. -/
def validateName (options : Options) (identities : List IdentityRecord) (details : Details) :
    Except PipelineResult String :=
  if !truthyStr details.name then
    .error { state := "requestError", reason := some "No user specified." }
  else
    let nm := details.name.getD ""
    if !matchesNameRegex nm then
      .error { state := "requestError",
               reason := some ("Invalid name format (should match regex " ++ nameRegexText ++ ").") }
    else
      let i := identities.findIdx? (fun o => o.name == nm)
      if options.newIdentity then
        if i.isSome then
          .error { state := "requestError", reason := some "Identity name already in use." }
        else
          .ok nm
      else
        if i.isNone then
          .error { state := "requestError", reason := some "No such user." }
        else
          .ok nm

/-- Validate authentication section (auth.js:140-174): auth is mandatory in
creation mode; when present, the named provider is resolved and must expose
validate and commit; the provider validate result is propagated verbatim on
failure (callers only read its state and reason), and on success its
cleanRecord is copied into the pipeline output together with the resolved
provider. -/
def validateAuth (reg : Registry) (options : Options) (details : Details) :
    Except PipelineResult (Option AuthDetails × Option Provider) :=
  if options.newIdentity && !details.auth.isSome then
    .error { state := "requestError",
             reason := some "No athentication details specified for new identity." }
  else
    match details.auth with
    | none => .ok (none, none)
    | some auth =>
      if !truthyStr auth.type then
        .error { state := "requestError", reason := some "No authentication type specified." }
      else
        match reg (auth.type.getD "") with
        | none =>
          .error { state := "serverConfigurationError",
                   reason := some ("Invalid authentication type specified for user: "
                     ++ auth.type.getD "") }
        | some authType =>
          if !authType.hasValidate then
            .error { state := "serverConfigurationError",
                     reason := some ("No validation function specified for authentication type: "
                       ++ auth.type.getD "") }
          else if !authType.hasCommit then
            .error { state := "serverConfigurationError",
                     reason := some ("No commit function specified for authentication type: "
                       ++ auth.type.getD "") }
          else
            let r := authType.validate auth
            if r.state ≠ "success" then
              .error { state := r.state, reason := r.reason }
            else
              .ok (r.cleanRecord, some authType)

/-- Validate functions section (auth.js:176-211).  Both loops are written
for (let f in details.functions): for..in over a JS array iterates its
index keys "0", "1", ..., not its elements, so the checked strings are the
decimal indices.  Index keys are always strings (the typeof test never
fires) and always match the unanchored function regex, so the format
filter is empty for every array; the allow-list filter compares the index
strings against options.validFunctions. -/
def validateFunctions (options : Options) (details : Details) :
    Except PipelineResult (Option (List String)) :=
  match details.functions with
  | none => .ok none
  | some .nonArray =>
    .error { state := "requestError", reason := some "Functions not specified as an array." }
  | some (.arr fs) =>
    let keys := (List.range fs.length).map (fun i => toString i)
    let incorrectFormat := keys.filter (fun f => !matchesNameRegex f)
    if incorrectFormat.length > 0 then
      .error { state := "requestError",
               reason := some ("Incorrectly formatted function names (should match regex "
                 ++ nameRegexText ++ "): " ++ String.intercalate ", " incorrectFormat) }
    else
      match options.validFunctions with
      | some valid =>
        let invalidFunctions := keys.filter (fun f => !valid.contains f)
        if invalidFunctions.length > 0 then
          .error { state := "requestError",
                   reason := some ("Invalid functions named: "
                     ++ String.intercalate ", " invalidFunctions) }
        else
          .ok (some fs)
      | none => .ok (some fs)

/-- validateIdentitySpec (auth.js:104-218).  The store is threaded through
explicitly: the source only reads the module-level identities list here, so
every return statement leaves it as it was.  On success cleanRecord holds
the validated name, the provider cleanRecord for auth (when supplied) and
the functions list, defaulted to the empty list when absent
(auth.js:213-215; an empty array is truthy, so a supplied empty list is
kept as is, which coincides with the default). -/
def validateIdentitySpec (reg : Registry) (details : Details) (options : Option Options)
    (identities : List IdentityRecord) : PipelineResult × List IdentityRecord :=
  match validateName (normOptions options) identities details with
  | .error r => (r, identities)
  | .ok nm =>
    match validateAuth reg (normOptions options) details with
    | .error r => (r, identities)
    | .ok (cleanAuth, authType) =>
      match validateFunctions (normOptions options) details with
      | .error r => (r, identities)
      | .ok cleanFns =>
        ({ state := "success", reason := none, pass := true,
           cleanRecord := some { name := nm, id := none, auth := cleanAuth,
                                 functions := some (cleanFns.getD []) },
           authType := authType }, identities)

/-! ## Identity store CRUD operations and authenticate flow
(auth.js:234-337) -/

/-- Result object of the CRUD operations and of authenticate.  Mirrors the
JS result objects: state always present, the other properties optional.
Non-success provider commit results are propagated verbatim in the source;
callers only read their state and reason. -/
structure OpResult where
  state : String
  reason : Option String := none
  identity : Option IdentityRecord := none
  token : Option Token := none
deriving DecidableEq

/-- Placeholder for reading cleanRecord off a passing pipeline result; a
passing result always carries a cleanRecord, so this value is never
reached. -/
def emptyRecord : IdentityRecord := { name := "" }

/-- addIdentity (auth.js:234-260).  Runs the pipeline in creation mode; on
pass, assigns a fresh id (the uuidv4 call is modelled by the freshId
argument), invokes the resolved provider commit inside try/catch, and only
on a successful commit appends the completed record to the store.  The
try block covers the whole commit call, so even the property access on a
null authType is caught there. -/
def addIdentity (reg : Registry) (freshId : String) (details : Details)
    (identities : List IdentityRecord) : OpResult × List IdentityRecord :=
  let vr := validateIdentitySpec reg details
    (some { newIdentity := true, validFunctions := none }) identities
  let r := vr.1
  if r.pass then
    let record := { r.cleanRecord.getD emptyRecord with id := some freshId }
    let commitOutcome : Except JsError CommitResult :=
      match r.authType with
      | some p => p.commit record.auth
      | none => .error (.typeError "Cannot read properties of null (reading commit)")
    match commitOutcome with
    | .error _ =>
      ({ state := "serverAuthCommitFailed",
         reason := some "An exception occured while commiting authentication details." }, vr.2)
    | .ok cr =>
      if cr.state ≠ "success" then
        ({ state := cr.state, reason := cr.reason }, vr.2)
      else
        let record := { record with auth := cr.commitRecord }
        ({ state := "success", identity := some record }, vr.2 ++ [record])
  else
    ({ state := r.state, reason := r.reason }, vr.2)

/-- setIdentity (auth.js:262-295).  After a passing validation the source
evaluates identities.findIndex((o) => o.name == name) at line 272, where
name is an unresolved identifier: the file runs under strict mode, so the
callback raises ReferenceError as soon as it runs.  On an empty store the
callback never runs, findIndex yields -1, identities[-1] is undefined and
Object.keys(identity) raises TypeError instead.  Validation in update mode
requires the name to be present, so the store is nonempty on every passing
path.  The update loop after that line is unreachable. -/
def setIdentity (reg : Registry) (details : Details) (identities : List IdentityRecord) :
    Except JsError (OpResult × List IdentityRecord) :=
  let vr := validateIdentitySpec reg details none identities
  let r := vr.1
  if !r.pass then
    .ok ({ state := r.state, reason := r.reason }, vr.2)
  else
    if vr.2.isEmpty then
      .error (.typeError "Cannot convert undefined or null to object")
    else
      .error (.referenceError "name")

/-- removeIdentity (auth.js:297-309).  Runs the pipeline with only the name
supplied; on pass, splices out the record found by findIndex.  When the
name is not found, findIndex yields -1 and splice(-1, 1) removes the last
element; the existence check makes that branch unreachable on passing
paths. -/
def removeIdentity (reg : Registry) (nm : String) (identities : List IdentityRecord) :
    OpResult × List IdentityRecord :=
  let vr := validateIdentitySpec reg { name := some nm } none identities
  let r := vr.1
  if !r.pass then
    ({ state := r.state, reason := r.reason }, vr.2)
  else
    match vr.2.findIdx? (fun o => o.name == nm) with
    | some i => ({ state := "success" }, vr.2.eraseIdx i)
    | none => ({ state := "success" }, vr.2.dropLast)

/-- authenticate (auth.js:311-337).  Runs the pipeline in lookup mode,
resolves the stored identity and its provider, delegates the credential
check to the provider authenticate, and on success issues a token with the
default duration.  Property accesses on undefined values raise TypeError
(no try/catch here); those paths are unreachable after a passing lookup of
a well-formed store. -/
def authenticate (reg : Registry) (details : Details) (now : Int)
    (identities : List IdentityRecord) : Except JsError (OpResult × List IdentityRecord) :=
  let vr := validateIdentitySpec reg details none identities
  let r := vr.1
  if !r.pass then
    .ok ({ state := r.state, reason := r.reason }, vr.2)
  else
    match vr.2.findIdx? (fun o => details.name == some o.name) with
    | none => .error (.typeError "Cannot read properties of undefined (reading auth)")
    | some i =>
      match vr.2[i]? with
      | none => .error (.typeError "Cannot read properties of undefined (reading auth)")
      | some identity =>
        match identity.auth with
        | none => .error (.typeError "Cannot read properties of undefined (reading type)")
        | some storedAuth =>
          match reg (storedAuth.type.getD "undefined") with
          | none => .error (.typeError "authType.authenticate is not a function")
          | some authType =>
            let ar := authType.authenticate (some storedAuth) details
            if ar.state ≠ "success" then
              .ok ({ state := ar.state, reason := ar.reason }, vr.2)
            else
              let t := newToken identity none now
              .ok ({ state := ar.state, reason := ar.reason, token := some t }, vr.2)

/-! ## Endpoint bindings (auth.js:356-452) -/

/-- Status explicitly set by the POST base authentication handler
(auth.js:361-387): 200 when the result carries a token, otherwise the
switch maps requestError to 400, serverError to 500 and failed to 403.
The switch has no default clause, so on any other state no res.status call
happens and the result is none. -/
def authPostExplicitStatus (r : OpResult) : Option Nat :=
  if r.token.isSome then some 200
  else
    match r.state with
    | "requestError" => some 400
    | "serverError" => some 500
    | "failed" => some 403
    | _ => none

/-- Status the response actually goes out with: when the handler never
calls res.status, the transport default applies, which is 200 in Express. -/
def authPostStatus (r : OpResult) : Nat :=
  (authPostExplicitStatus r).getD 200

/-! ## Authorization middleware (auth.js:456-473) -/

/-- Request-scoped context seen by mw_verify: the authorization header and
the authenticated property the middleware may attach. -/
structure Request where
  authorization : Option String
  authenticated : Option Payload := none
deriving DecidableEq

/-- Token extraction of mw_verify: the regex match
auth.match of ^(?<type>bearer) (?<token>.+) anchored at the start only.
The scheme word is the literal lowercase bearer (no i flag), followed by
one space; the token group is one or more chars, where dot does not cross
a newline, so it captures everything up to the first newline and the match
fails when that capture would be empty. -/
def bearerTokenOf (auth : String) : Option String :=
  match auth.toList with
  | 'b' :: 'e' :: 'a' :: 'r' :: 'e' :: 'r' :: ' ' :: rest =>
    let t := rest.takeWhile (fun c => c != '\n')
    if t.isEmpty then none else some (String.mk t)
  | _ => none

/-- mw_verify (auth.js:456-473).  The JWT wire encoding is abstracted by
dec, the inverse of the jwt.sign string encoding; the middleware applies
verifyToken to the decoded header token and attaches the payload to
req.authenticated on success, leaving the request untouched on every other
path. -/
def mw_verify (dec : String → Token) (now : Int) (req : Request) : Request :=
  match req.authorization with
  | none => req
  | some auth =>
    if auth = "" then req
    else
      match bearerTokenOf auth with
      | none => req
      | some tokStr =>
        match verifyToken (dec tokStr) now with
        | none => req
        | some p => { req with authenticated := some p }

/-! ## Concrete provider instances used to evaluate the model -/

/-- Modelled from the spec: a well-behaved password provider satisfying the
contract of spec section 4.1 (the concrete module
./authProviders/password/module is not among the sources).  validate
accepts the credential and returns it as cleanRecord, commit returns a
committed form, authenticate succeeds.  It is used at call sites whose
behavior does not depend on provider internals. -/
def passwordProvider : Provider :=
  { hasValidate := true, hasCommit := true,
    validate := fun a => { state := "success", cleanRecord := some a },
    commit := fun a => .ok { state := "success", commitRecord := a },
    authenticate := fun _ _ => { state := "success" } }

/-- A provider whose commit raises, used to exercise the catch branch of
addIdentity. -/
def throwingProvider : Provider :=
  { hasValidate := true, hasCommit := true,
    validate := fun a => { state := "success", cleanRecord := some a },
    commit := fun _ => .error (.thrown "commit failure"),
    authenticate := fun _ _ => { state := "failed", reason := some "unsupported" } }

/-- Stub decoder for the abstract JWT wire encoding, mapping every token
string to one fixed valid token; used to evaluate the middleware on
concrete headers. -/
def decPayload : Payload :=
  { name := "admin", iat := 0, exp := 1800, functions := some ["auth", "api"] }

/-- Stub decoder returning a token signed with the process secret and not
yet expired at time 0. -/
def decStub : String → Token := fun _ => { payload := decPayload, sig := secret }

/-- An operation on the identity store: an addIdentity call (with the
fresh uuid it draws) or a removeIdentity call. -/
inductive StoreOp where
  | add (freshId : String) (details : Details)
  | remove (nm : String)

/-- Store resulting from one CRUD call. -/
def applyOp (reg : Registry) (s : List IdentityRecord) : StoreOp → List IdentityRecord
  | .add freshId details => (addIdentity reg freshId details s).2
  | .remove nm => (removeIdentity reg nm s).2

/-- Store resulting from a sequence of addIdentity and removeIdentity
calls. -/
def applyOps (reg : Registry) (ops : List StoreOp) (s : List IdentityRecord) :
    List IdentityRecord :=
  ops.foldl (applyOp reg) s

/-! ## Helper lemmas -/

/-- The validation pipeline threads the store through unchanged: every
return site of validateIdentitySpec pairs its result with the untouched
identities list. -/
theorem validateIdentitySpec_snd (reg : Registry) (d : Details) (o : Option Options)
    (s : List IdentityRecord) : (validateIdentitySpec reg d o s).2 = s := by
  unfold validateIdentitySpec
  cases validateName (normOptions o) s d with
  | error r => rfl
  | ok nm =>
    cases validateAuth reg (normOptions o) d with
    | error r => rfl
    | ok pr =>
      cases validateFunctions (normOptions o) d with
      | error r => rfl
      | ok cf => rfl

/-- A none result of findIdx? means the predicate fails on every element. -/
theorem findIdx?_none_forall {α : Type} (p : α → Bool) (l : List α)
    (h : l.findIdx? p = none) : ∀ a ∈ l, p a = false := by
  induction l with
  | nil => intro a ha; cases ha
  | cons x t ih =>
    rw [List.findIdx?_cons] at h
    by_cases hx : p x
    · simp [hx] at h
    · intro a ha
      cases ha with
      | head => simpa using hx
      | tail _ ht =>
        refine ih ?_ a ht
        simpa [hx] using h

/-! ## Claim theorems -/

/-- C9: for every details and options input, validateIdentitySpec leaves
the identity store unchanged; validation, including its existence checks,
is a pure read of the store. -/
theorem validateIdentitySpec_frame (reg : Registry) (d : Details) (o : Option Options)
    (s : List IdentityRecord) : (validateIdentitySpec reg d o s).2 = s :=
  validateIdentitySpec_snd reg d o s

/-- C2: for every identity record with name n and functions list F,
verifying a freshly issued token before its expiry instant yields non-null
claims whose name equals n and whose functions equal F by value
equality. -/
theorem newToken_verifyToken_roundtrip (I : IdentityRecord) (n : String) (F : List String)
    (now vnow : Int) (hn : I.name = n) (hF : I.functions = some F)
    (hexp : vnow < now + 30 * 60) :
    verifyToken (newToken I none now) vnow =
      some { name := n, iat := now, exp := now + 30 * 60, functions := some F } := by
  have h : vnow < now + 1800 := by omega
  simp [newToken, verifyToken, hn, hF, h]

/-- Witness for C2 at a concrete identity and time. -/
theorem newToken_verifyToken_roundtrip_witness :
    ({ name := "admin", functions := some ["auth", "api"] } : IdentityRecord).name = "admin" ∧
    ({ name := "admin", functions := some ["auth", "api"] } : IdentityRecord).functions =
      some ["auth", "api"] ∧
    (0 : Int) < 0 + 30 * 60 ∧
    verifyToken (newToken { name := "admin", functions := some ["auth", "api"] } none 0) 0 =
      some { name := "admin", iat := 0, exp := 0 + 30 * 60, functions := some ["auth", "api"] } :=
  ⟨rfl, rfl, by decide,
    newToken_verifyToken_roundtrip _ _ _ 0 0 rfl rfl (by decide)⟩

/-- C10: when the identity has no functions property, the issued token
payload carries no functions claim at all, and verifying the token returns
claims whose functions field is absent, not an empty list. -/
theorem newToken_no_functions_claim (I : IdentityRecord) (now vnow : Int)
    (hF : I.functions = none) (hexp : vnow < now + 30 * 60) :
    verifyToken (newToken I none now) vnow =
      some { name := I.name, iat := now, exp := now + 30 * 60, functions := none } := by
  have h : vnow < now + 1800 := by omega
  simp [newToken, verifyToken, hF, h]

/-- Witness for C10 at a concrete identity without functions. -/
theorem newToken_no_functions_claim_witness :
    ({ name := "carol" } : IdentityRecord).functions = none ∧
    (0 : Int) < 0 + 30 * 60 ∧
    verifyToken (newToken { name := "carol" } none 0) 0 =
      some { name := "carol", iat := 0, exp := 0 + 30 * 60, functions := none } :=
  ⟨rfl, by decide, newToken_no_functions_claim _ 0 0 rfl (by decide)⟩

/-- C4: evaluating validateIdentitySpec with validFunctions ["api"] and a
request granting functions ["admin"] on the initial store.  The state is
requestError, but the reason names the array index 0, not the offending
function admin, because both loops of the functions section iterate the
array with for..in, which yields index keys instead of elements. -/
theorem validFunctions_check_uses_indexes_eval :
    (validateIdentitySpec (authTypes passwordProvider)
        { name := some "admin", functions := some (.arr ["admin"]) }
        (some { newIdentity := false, validFunctions := some ["api"] })
        initialIdentities).1.state = "requestError" ∧
    (validateIdentitySpec (authTypes passwordProvider)
        { name := some "admin", functions := some (.arr ["admin"]) }
        (some { newIdentity := false, validFunctions := some ["api"] })
        initialIdentities).1.reason = some "Invalid functions named: 0" :=
  ⟨rfl, rfl⟩

/-- C6: evaluating setIdentity on a details object whose name exists in the
store.  Instead of returning a result object, the operation raises
ReferenceError: the findIndex callback at auth.js:272 reads the unresolved
identifier name under strict mode. -/
theorem setIdentity_throws_referenceError_eval :
    setIdentity (authTypes passwordProvider) { name := some "admin" } initialIdentities =
      .error (.referenceError "name") :=
  rfl

/-- C7: evaluating the authenticate endpoint on a body that yields state
serverConfigurationError, a state the handler switch does not map.  No
res.status call happens (explicit status none) and the response goes out
with the transport default status 200, not a 500-equivalent. -/
theorem authPost_unmapped_state_default_200_eval :
    authenticate (authTypes passwordProvider)
        { name := some "admin", auth := some { type := some "unknowntype" } } 0
        initialIdentities =
      .ok ({ state := "serverConfigurationError",
             reason := some "Invalid authentication type specified for user: unknowntype" },
           initialIdentities) ∧
    authPostExplicitStatus
        { state := "serverConfigurationError",
          reason := some "Invalid authentication type specified for user: unknowntype" } = none ∧
    authPostStatus
        { state := "serverConfigurationError",
          reason := some "Invalid authentication type specified for user: unknowntype" } = 200 :=
  ⟨rfl, rfl, rfl⟩

/-- C8 counterexample: the name bad name! contains characters of the name
class, and the unanchored regex match is satisfied by any one of them, so
the format check passes; the requestError actually returned comes from the
store existence check after the lookup (reason No such user), not from the
format check of step 1. -/
theorem malformed_name_error_from_lookup_counterexample :
    matchesNameRegex "bad name!" = true ∧
    (validateIdentitySpec (authTypes passwordProvider) { name := some "bad name!" }
        (some {}) initialIdentities).1.state = "requestError" ∧
    (validateIdentitySpec (authTypes passwordProvider) { name := some "bad name!" }
        (some {}) initialIdentities).1.reason = some "No such user." :=
  ⟨by decide, rfl, rfl⟩

/-- C8 amended: for every nonempty name containing at least one character
of the name class and absent from the store, validateIdentitySpec with
empty options returns requestError, with the failure arising from the
store existence check (No such user) after the lookup, because the
unanchored name regex accepts any name containing one valid character. -/
theorem unanchored_name_regex_existence_failure (reg : Registry) (nm : String)
    (s : List IdentityRecord) (hne : nm ≠ "") (hm : matchesNameRegex nm = true)
    (habs : s.findIdx? (fun o => o.name == nm) = none) :
    (validateIdentitySpec reg { name := some nm } (some {}) s).1 =
      { state := "requestError", reason := some "No such user." } := by
  have hvn : validateName (normOptions (some {})) s { name := some nm } =
      .error { state := "requestError", reason := some "No such user." } := by
    unfold validateName
    simp [truthyStr, hne, hm, normOptions, habs]
  unfold validateIdentitySpec
  rw [hvn]

/-- Witness for the amended C8 at the concrete name bad name! against the
initial store. -/
theorem unanchored_name_regex_existence_failure_witness :
    ("bad name!" ≠ "") ∧ matchesNameRegex "bad name!" = true ∧
    initialIdentities.findIdx? (fun o => o.name == "bad name!") = none ∧
    (validateIdentitySpec (authTypes passwordProvider) { name := some "bad name!" }
        (some {}) initialIdentities).1 =
      { state := "requestError", reason := some "No such user." } :=
  ⟨by decide, by decide, by decide,
    unanchored_name_regex_existence_failure (authTypes passwordProvider) "bad name!"
      initialIdentities (by decide) (by decide) (by decide)⟩

/-- C5 counterexample: a header carrying the standard capitalized scheme
word Bearer and a token that verifyToken accepts.  The middleware regex
only matches the lowercase scheme word, so the request passes through
unchanged and no claims are attached, refuting case-insensitivity. -/
theorem mw_verify_uppercase_scheme_counterexample :
    verifyToken (decStub "abc") 0 = some decPayload ∧
    mw_verify decStub 0 { authorization := some "Bearer abc" } =
      { authorization := some "Bearer abc", authenticated := none } :=
  ⟨rfl, rfl⟩

/-- A takeWhile over chars different from newline is the identity on a
newline-free list. -/
theorem takeWhile_ne_newline (l : List Char) (h : '\n' ∉ l) :
    l.takeWhile (fun c => c != '\n') = l := by
  induction l with
  | nil => rfl
  | cons a t ih =>
    have ha : a ≠ '\n' := by intro he; exact h (by simp [he])
    have ht : '\n' ∉ t := by intro hm; exact h (by simp [hm])
    simp [List.takeWhile_cons, ha, ih ht]

/-- C5 amended: the scheme word match is case-sensitive, accepting exactly
the lowercase word bearer; for a header bearer token whose token part is
nonempty and newline-free, the middleware extracts the token, and when
verifyToken succeeds on it the decoded claims are attached to the
request. -/
theorem mw_verify_lowercase_scheme_attaches (dec : String → Token) (tok : String)
    (now : Int) (p : Payload) (hne : tok.toList ≠ []) (hnl : '\n' ∉ tok.toList)
    (hv : verifyToken (dec tok) now = some p) :
    (mw_verify dec now { authorization := some ("bearer " ++ tok) }).authenticated = some p := by
  obtain ⟨l⟩ := tok
  have hl : ("bearer " ++ String.mk l).toList = 'b' :: 'e' :: 'a' :: 'r' :: 'e' :: 'r' :: ' ' :: l := rfl
  have hempty : ("bearer " ++ String.mk l) ≠ "" := by
    intro he
    have h2 : ('b' :: 'e' :: 'a' :: 'r' :: 'e' :: 'r' :: ' ' :: l) = ([] : List Char) := by
      rw [← hl, he]; rfl
    exact absurd h2 (by simp)
  have hbt : bearerTokenOf ("bearer " ++ String.mk l) = some (String.mk l) := by
    unfold bearerTokenOf
    rw [hl]
    have ht : l.takeWhile (fun c => c != '\n') = l := takeWhile_ne_newline l hnl
    have hie : l.isEmpty = false := by
      cases l with
      | nil => exact absurd rfl hne
      | cons a t => rfl
    simp only [ht, hie]
    rfl
  simp only [mw_verify]
  rw [if_neg hempty, hbt]
  simp [hv]

/-- Witness for the amended C5 at a concrete lowercase header. -/
theorem mw_verify_lowercase_scheme_attaches_witness :
    ("abc" : String).toList ≠ [] ∧ '\n' ∉ ("abc" : String).toList ∧
    verifyToken (decStub "abc") 0 = some decPayload ∧
    (mw_verify decStub 0 { authorization := some ("bearer " ++ "abc") }).authenticated =
      some decPayload :=
  ⟨by decide, by decide, rfl,
    mw_verify_lowercase_scheme_attaches decStub "abc" 0 decPayload
      (by decide) (by decide) rfl⟩

/-- C1: when the pipeline passes in creation mode and the resolved provider
commit raises, addIdentity catches the exception, reports
serverAuthCommitFailed, and returns the store exactly as it was before the
call: no record is appended. -/
theorem addIdentity_commit_throw_atomic (reg : Registry) (freshId : String)
    (details : Details) (s : List IdentityRecord) (p : Provider) (c : IdentityRecord)
    (e : JsError)
    (hpass : (validateIdentitySpec reg details
      (some { newIdentity := true, validFunctions := none }) s).1.pass = true)
    (hat : (validateIdentitySpec reg details
      (some { newIdentity := true, validFunctions := none }) s).1.authType = some p)
    (hcr : (validateIdentitySpec reg details
      (some { newIdentity := true, validFunctions := none }) s).1.cleanRecord = some c)
    (hthrow : p.commit c.auth = .error e) :
    addIdentity reg freshId details s =
      ({ state := "serverAuthCommitFailed",
         reason := some "An exception occured while commiting authentication details." }, s) := by
  simp only [addIdentity, hpass, hat, hcr, hthrow, Option.getD, if_true,
    validateIdentitySpec_snd]

/-- Witness for C1: a provider whose commit raises, a fresh identity bob;
the add reports serverAuthCommitFailed and the store is the untouched
initial store. -/
theorem addIdentity_commit_throw_atomic_witness :
    (validateIdentitySpec (authTypes throwingProvider)
        { name := some "bob", auth := some { type := some "password", rest := "pw" } }
        (some { newIdentity := true, validFunctions := none }) initialIdentities).1.pass = true ∧
    (validateIdentitySpec (authTypes throwingProvider)
        { name := some "bob", auth := some { type := some "password", rest := "pw" } }
        (some { newIdentity := true, validFunctions := none })
        initialIdentities).1.authType = some throwingProvider ∧
    (validateIdentitySpec (authTypes throwingProvider)
        { name := some "bob", auth := some { type := some "password", rest := "pw" } }
        (some { newIdentity := true, validFunctions := none })
        initialIdentities).1.cleanRecord =
      some { name := "bob", id := none,
             auth := some { type := some "password", rest := "pw" }, functions := some [] } ∧
    throwingProvider.commit (some { type := some "password", rest := "pw" }) =
      .error (.thrown "commit failure") ∧
    addIdentity (authTypes throwingProvider) "id-1"
        { name := some "bob", auth := some { type := some "password", rest := "pw" } }
        initialIdentities =
      ({ state := "serverAuthCommitFailed",
         reason := some "An exception occured while commiting authentication details." },
       initialIdentities) :=
  ⟨rfl, rfl, rfl, rfl,
    addIdentity_commit_throw_atomic (authTypes throwingProvider) "id-1"
      { name := some "bob", auth := some { type := some "password", rest := "pw" } }
      initialIdentities throwingProvider
      { name := "bob", id := none,
        auth := some { type := some "password", rest := "pw" }, functions := some [] }
      (.thrown "commit failure") rfl rfl rfl rfl⟩

/-- Every early return of the name section leaves pass falsy. -/
theorem validateName_error_pass (o : Options) (s : List IdentityRecord) (d : Details)
    (r : PipelineResult) (h : validateName o s d = .error r) : r.pass = false := by
  simp only [validateName] at h
  split at h
  · injection h with h2; exact h2 ▸ rfl
  · split at h
    · injection h with h2; exact h2 ▸ rfl
    · split at h
      · split at h
        · injection h with h2; exact h2 ▸ rfl
        · exact Except.noConfusion h
      · split at h
        · injection h with h2; exact h2 ▸ rfl
        · exact Except.noConfusion h

/-- Every early return of the authentication section leaves pass falsy. -/
theorem validateAuth_error_pass (reg : Registry) (o : Options) (d : Details)
    (r : PipelineResult) (h : validateAuth reg o d = .error r) : r.pass = false := by
  simp only [validateAuth] at h
  split at h
  · injection h with h2; exact h2 ▸ rfl
  · split at h
    · exact Except.noConfusion h
    · split at h
      · injection h with h2; exact h2 ▸ rfl
      · split at h
        · injection h with h2; exact h2 ▸ rfl
        · split at h
          · injection h with h2; exact h2 ▸ rfl
          · split at h
            · injection h with h2; exact h2 ▸ rfl
            · split at h
              · injection h with h2; exact h2 ▸ rfl
              · exact Except.noConfusion h

/-- Every early return of the functions section leaves pass falsy. -/
theorem validateFunctions_error_pass (o : Options) (d : Details)
    (r : PipelineResult) (h : validateFunctions o d = .error r) : r.pass = false := by
  simp only [validateFunctions] at h
  split at h
  · exact Except.noConfusion h
  · injection h with h2; exact h2 ▸ rfl
  · split at h
    · injection h with h2; exact h2 ▸ rfl
    · split at h
      · split at h
        · injection h with h2; exact h2 ▸ rfl
        · exact Except.noConfusion h
      · exact Except.noConfusion h

/-- A passing name validation in creation mode certifies that the
validated name is absent from the store. -/
theorem validateName_new_ok (o : Options) (s : List IdentityRecord) (d : Details) (nm : String)
    (hnew : o.newIdentity = true) (h : validateName o s d = .ok nm) :
    ∀ rec ∈ s, rec.name ≠ nm := by
  simp only [validateName] at h
  split at h
  · exact Except.noConfusion h
  · split at h
    · exact Except.noConfusion h
    · split at h
      · exact Except.noConfusion h
      next hguard =>
        injection h with h2
        subst h2
        intro rec hrec
        have hnone : s.findIdx? (fun o => o.name == d.name.getD "") = none :=
          Option.not_isSome_iff_eq_none.mp hguard
        have hall := findIdx?_none_forall _ _ hnone
        simpa using hall rec hrec

/-- A passing pipeline run in creation mode certifies a cleanRecord whose
name is absent from the store. -/
theorem vspec_pass_new (reg : Registry) (d : Details) (vf : Option (List String))
    (s : List IdentityRecord)
    (hpass : (validateIdentitySpec reg d
      (some { newIdentity := true, validFunctions := vf }) s).1.pass = true) :
    ∃ c, (validateIdentitySpec reg d
        (some { newIdentity := true, validFunctions := vf }) s).1.cleanRecord = some c ∧
      ∀ rec ∈ s, rec.name ≠ c.name := by
  unfold validateIdentitySpec at hpass ⊢
  cases hN : validateName (normOptions (some { newIdentity := true, validFunctions := vf }))
      s d with
  | error r =>
    simp only [hN] at hpass
    simp [validateName_error_pass _ _ _ _ hN] at hpass
  | ok nm =>
    simp only [hN] at hpass ⊢
    cases hA : validateAuth reg
        (normOptions (some { newIdentity := true, validFunctions := vf })) d with
    | error r =>
      simp only [hA] at hpass
      simp [validateAuth_error_pass _ _ _ _ hA] at hpass
    | ok pr =>
      obtain ⟨cleanAuth, authType⟩ := pr
      simp only [hA] at hpass ⊢
      cases hF : validateFunctions
          (normOptions (some { newIdentity := true, validFunctions := vf })) d with
      | error r =>
        simp only [hF] at hpass
        simp [validateFunctions_error_pass _ _ _ hF] at hpass
      | ok cf =>
        simp only [hF]
        refine ⟨_, rfl, ?_⟩
        intro rec hrec
        exact validateName_new_ok _ s d nm rfl hN rec hrec

/-- addIdentity either leaves the store untouched (any failing path) or
appends one record whose name was absent from the store. -/
theorem addIdentity_store_cases (reg : Registry) (freshId : String) (d : Details)
    (s : List IdentityRecord) :
    (addIdentity reg freshId d s).2 = s ∨
      ∃ rec, (addIdentity reg freshId d s).2 = s ++ [rec] ∧ ∀ o ∈ s, o.name ≠ rec.name := by
  by_cases hpass : (validateIdentitySpec reg d
      (some { newIdentity := true, validFunctions := none }) s).1.pass = true
  · obtain ⟨c, hc, hfresh⟩ := vspec_pass_new reg d none s hpass
    simp only [addIdentity, hpass, hc, Option.getD, validateIdentitySpec_snd, if_true]
    cases hat : (validateIdentitySpec reg d
        (some { newIdentity := true, validFunctions := none }) s).1.authType with
    | none => simp [hat]
    | some p =>
      simp only [hat]
      cases hcm : p.commit ({ c with id := some freshId }).auth with
      | error e => simp [hcm]
      | ok cr =>
        simp only [hcm]
        by_cases hst : cr.state = "success"
        · right
          refine ⟨{ { c with id := some freshId } with auth := cr.commitRecord },
            by simp [hst], ?_⟩
          intro o ho
          exact hfresh o ho
        · left
          simp [hst]
  · left
    simp [addIdentity, hpass, validateIdentitySpec_snd]

/-- removeIdentity only ever removes elements: its resulting store is a
sublist of the input store. -/
theorem removeIdentity_store_sublist (reg : Registry) (nm : String)
    (s : List IdentityRecord) : ((removeIdentity reg nm s).2).Sublist s := by
  unfold removeIdentity
  simp only [validateIdentitySpec_snd]
  split
  · exact List.Sublist.refl s
  · split
    · exact List.eraseIdx_sublist s _
    · exact List.dropLast_sublist s

/-- addIdentity preserves pairwise-distinct names. -/
theorem addIdentity_pairwise (reg : Registry) (freshId : String) (d : Details)
    (s : List IdentityRecord) (h : s.Pairwise (fun a b => a.name ≠ b.name)) :
    ((addIdentity reg freshId d s).2).Pairwise (fun a b => a.name ≠ b.name) := by
  rcases addIdentity_store_cases reg freshId d s with heq | ⟨rec, heq, hfresh⟩
  · rw [heq]; exact h
  · rw [heq, List.pairwise_append]
    refine ⟨h, List.pairwise_singleton _ _, ?_⟩
    intro a ha b hb
    rw [List.mem_singleton] at hb
    subst hb
    exact hfresh a ha

/-- removeIdentity preserves pairwise-distinct names. -/
theorem removeIdentity_pairwise (reg : Registry) (nm : String)
    (s : List IdentityRecord) (h : s.Pairwise (fun a b => a.name ≠ b.name)) :
    ((removeIdentity reg nm s).2).Pairwise (fun a b => a.name ≠ b.name) :=
  List.Pairwise.sublist (removeIdentity_store_sublist reg nm s) h

/-- Any sequence of add and remove operations preserves pairwise-distinct
names. -/
theorem applyOps_pairwise (reg : Registry) (ops : List StoreOp) (s : List IdentityRecord)
    (h : s.Pairwise (fun a b => a.name ≠ b.name)) :
    (applyOps reg ops s).Pairwise (fun a b => a.name ≠ b.name) := by
  induction ops generalizing s with
  | nil => exact h
  | cons op rest ih =>
    rw [applyOps, List.foldl_cons]
    cases op with
    | add freshId d => exact ih _ (addIdentity_pairwise reg freshId d s h)
    | remove nm => exact ih _ (removeIdentity_pairwise reg nm s h)

/-- With pairwise-distinct names, at most one record matches any given
name. -/
theorem pairwise_filter_name (s : List IdentityRecord) (n : String)
    (h : s.Pairwise (fun a b => a.name ≠ b.name)) :
    (s.filter (fun o => o.name == n)).length ≤ 1 := by
  induction s with
  | nil => simp
  | cons a t ih =>
    rw [List.pairwise_cons] at h
    rw [List.filter_cons]
    by_cases ha : a.name == n
    · have han : a.name = n := by simpa using ha
      have hnone : t.filter (fun o => o.name == n) = [] := by
        rw [List.filter_eq_nil_iff]
        intro b hb
        have hab : a.name ≠ b.name := h.1 b hb
        simp [← han]
        exact fun hbn => hab hbn.symm
      simp [ha, hnone]
    · simp only [ha, if_false, Bool.false_eq_true]
      exact ih h.2

/-- C3: starting from a store in which each name occurs at most once,
after any sequence of addIdentity and removeIdentity operations the store
contains at most one record with any given name: addIdentity only appends
after the creation-mode existence check certifies the name absent, and
removeIdentity only removes. -/
theorem store_name_uniqueness (reg : Registry) (ops : List StoreOp)
    (s : List IdentityRecord) (h : s.Pairwise (fun a b => a.name ≠ b.name)) (n : String) :
    ((applyOps reg ops s).filter (fun o => o.name == n)).length ≤ 1 :=
  pairwise_filter_name _ n (applyOps_pairwise reg ops s h)

/-- Witness for C3: one add of a fresh bob and one remove of admin applied
to the initial store. -/
theorem store_name_uniqueness_witness :
    initialIdentities.Pairwise (fun a b => a.name ≠ b.name) ∧
    ((applyOps (authTypes passwordProvider)
        [.add "id-1" { name := some "bob",
                       auth := some { type := some "password", rest := "pw" } },
         .remove "admin"]
        initialIdentities).filter (fun o => o.name == "bob")).length ≤ 1 :=
  ⟨by decide,
    store_name_uniqueness (authTypes passwordProvider)
      [.add "id-1" { name := some "bob",
                     auth := some { type := some "password", rest := "pw" } },
       .remove "admin"]
      initialIdentities (by decide) "bob"⟩

end ReportServer
